import Mathlib

/-!
Verification of the room-scoped event routing subsystem of the AMEP backend
(`backend/app.py`, `register_socketio_events`).

The handlers are shallowly embedded as pure Lean functions over an explicit
server state.  The Flask-SocketIO primitives the handlers call (`join_room`,
`leave_room`, `emit` with `room=`, `broadcast=`, `skip_sid=`, and the
library's automatic room bookkeeping on connect/disconnect) are given their
documented semantics:

* every room is a mapping from a room key to the ordered set of connection
  sids that are members; on connect the library places the new sid both in
  the catch-all room (Python key `None`) and in a personal room named by the
  sid itself; on disconnect it removes the sid from every room;
* `join_room(r)` / `leave_room(r)` add/remove the calling sid in room `r`
  (idempotent; the Python `None` value is a legitimate room key, distinct
  from every string key);
* `emit(ev, payload, room=r, ...)` delivers to the members of room `r` at
  the moment of the call; when `r` is the Python `None` and `broadcast` is
  not set, the library substitutes the caller's sid (so the message goes to
  the caller's personal room); with `broadcast=True` and no room it goes to
  the catch-all room, i.e. every connected client;
* a recipient sid is skipped iff it compares equal to the `skip_sid`
  argument; the Python boolean `True` compares unequal to every sid string,
  so `skip_sid=True` skips nobody.

Wall-clock timestamps added to outbound payloads are outside the model; all
other payload fields are embedded exactly as the handlers build them.
-/

/-- A Python value used as a room key: either the Python `None` or a string.
`handle_join_class` passes `data.get('class_id')`, which is `None` when the
field is missing, so rooms can genuinely be keyed by `None`. -/
inductive RoomKey where
  | pyNone : RoomKey
  | name (s : String) : RoomKey
deriving DecidableEq, Repr

/-- Server-side room membership state: for each room key, the ordered list of
member connection sids (the library keeps an insertion-ordered dict; an empty
room is indistinguishable from an absent one). -/
structure ServerState where
  rooms : RoomKey → List String

/-- The state before any connection: every room is empty. -/
def initState : ServerState := ⟨fun _ => []⟩

/-- Insertion-ordered, duplicate-free add, as a Python dict key insert. -/
def addSid (sid : String) (l : List String) : List String :=
  if sid ∈ l then l else l ++ [sid]

/-- `enter_room(sid, room)` of the room manager: add `sid` to `room`. -/
def enterRoom (room : RoomKey) (sid : String) (st : ServerState) : ServerState :=
  ⟨fun k => if k = room then addSid sid (st.rooms k) else st.rooms k⟩

/-- `leave_room(sid, room)` of the room manager: remove `sid` from `room`. -/
def leaveRoom (room : RoomKey) (sid : String) (st : ServerState) : ServerState :=
  ⟨fun k => if k = room then (st.rooms k).filter (fun s => s ≠ sid) else st.rooms k⟩

/-- Library bookkeeping when a client connects: the sid is placed in the
catch-all room (Python `None`) and in its own personal room. -/
def connectSid (sid : String) (st : ServerState) : ServerState :=
  enterRoom (RoomKey.name sid) sid (enterRoom RoomKey.pyNone sid st)

/-- Library bookkeeping when a client disconnects: the sid is removed from
every room it is in (the manager iterates over all of the sid's rooms). -/
def disconnectSid (sid : String) (st : ServerState) : ServerState :=
  ⟨fun k => (st.rooms k).filter (fun s => s ≠ sid)⟩

/-- The inbound event payload, a Python dict read with `data.get`: a missing
field is the Python `None`.  Field types follow §6 of the spec. -/
structure EventData where
  class_id : Option String := none
  user_id : Option String := none
  role : Option String := none
  poll_id : Option String := none
  total_responses : Option Int := none
  student_id : Option String := none
  alert_type : Option String := none
  severity : Option String := none
  message : Option String := none
deriving DecidableEq, Repr

/-- An outbound payload, exactly the dict each handler builds (minus the
wall-clock `timestamp` field). -/
inductive Payload where
  | connected (message : String) : Payload
  | user_joined (user_id : Option String) (role : String) : Payload
  | poll_updated (poll_id : Option String) (total_responses : Int) : Payload
  | engagement_alert_received (student_id alert_type severity message : Option String) : Payload
deriving DecidableEq, Repr

/-- One `emit(...)` call as observed by the transport: the payload and the
list of sids it is delivered to, in room order. -/
structure Emit where
  payload : Payload
  audience : List String
deriving DecidableEq, Repr

/-- The `skip_sid` argument as the handlers pass it: absent, the Python
literal `True` (as in `handle_join_class`), or an actual sid. -/
inductive PySkip where
  | absent : PySkip
  | pyTrue : PySkip
  | sid (s : String) : PySkip
deriving DecidableEq, Repr

/-- A recipient is skipped iff its sid compares equal to `skip_sid`.  A sid
string never compares equal to the Python boolean `True`, so the
`skip_sid=True` of `handle_join_class` skips nobody. -/
def skipped : PySkip → String → Bool
  | PySkip.absent, _ => false
  | PySkip.pyTrue, _ => false
  | PySkip.sid t, s => s == t

/-- The Python value `data.get('class_id')` used as a room key: the key
`None` when the field is missing, the string key otherwise. -/
def roomKeyOf : Option String → RoomKey
  | Option.none => RoomKey.pyNone
  | some c => RoomKey.name c

/-- The room an `emit(..., room=r, broadcast=b)` call actually targets: a
named room if `r` is a string; otherwise the caller's personal room, or the
catch-all room when `broadcast=True`. -/
def emitKey (sender : String) (room : Option String) (broadcast : Bool) : RoomKey :=
  match room with
  | Option.none => if broadcast then RoomKey.pyNone else RoomKey.name sender
  | some r => RoomKey.name r

/-- One `emit` call: deliver `payload` to the members of the targeted room at
call time, minus any skipped sid. -/
def emitEvent (st : ServerState) (sender : String) (payload : Payload)
    (room : Option String) (broadcast : Bool) (skip : PySkip) : Emit :=
  ⟨payload, (st.rooms (emitKey sender room broadcast)).filter (fun s => !(skipped skip s))⟩

/-- `handle_connect`: the library registers the connection, then the handler
emits `connected` back to the connecting client (no room, no broadcast). -/
def handle_connect (sender : String) (st : ServerState) : ServerState × List Emit :=
  let st1 := connectSid sender st
  (st1, [emitEvent st1 sender (Payload.connected "Connected to AMEP server") Option.none false PySkip.absent])

/-- `handle_disconnect`: the handler body only logs; the library removes the
sid from every room as part of the same disconnect. -/
def handle_disconnect (sender : String) (st : ServerState) : ServerState × List Emit :=
  (disconnectSid sender st, [])

/-- `handle_join_class`: reads `class_id`, `user_id` and `role` (defaulting
`role` to `"student"`), calls `join_room(class_id)`, then emits
`user_joined` with `room=class_id, skip_sid=True`. -/
def handle_join_class (sender : String) (data : EventData) (st : ServerState) :
    ServerState × List Emit :=
  let user_role := data.role.getD "student"
  let st1 := enterRoom (roomKeyOf data.class_id) sender st
  (st1, [emitEvent st1 sender (Payload.user_joined data.user_id user_role)
          data.class_id false PySkip.pyTrue])

/-- `handle_leave_class`: reads `class_id` and calls `leave_room(class_id)`;
nothing is emitted. -/
def handle_leave_class (sender : String) (data : EventData) (st : ServerState) :
    ServerState × List Emit :=
  (leaveRoom (roomKeyOf data.class_id) sender st, [])

/-- `handle_poll_response`: mutates nothing and emits `poll_updated` with
`room=class_id, broadcast=True`, passing `poll_id` through and defaulting a
missing `total_responses` to `0`. -/
def handle_poll_response (sender : String) (data : EventData) (st : ServerState) :
    ServerState × List Emit :=
  (st, [emitEvent st sender
          (Payload.poll_updated data.poll_id (data.total_responses.getD 0))
          data.class_id true PySkip.absent])

/-- The Python f-string `f'teachers_{class_id}'`: `None` renders as the
four-letter string `None`. -/
def teacherRoomName (class_id : Option String) : String :=
  "teachers_" ++ (match class_id with | Option.none => "None" | some s => s)

/-- `handle_engagement_alert`: mutates nothing and emits
`engagement_alert_received` to the literal room `teachers_{class_id}`,
passing `student_id`, `alert_type`, `severity` and `message` through. -/
def handle_engagement_alert (sender : String) (data : EventData) (st : ServerState) :
    ServerState × List Emit :=
  (st, [emitEvent st sender
          (Payload.engagement_alert_received data.student_id data.alert_type
            data.severity data.message)
          (some (teacherRoomName data.class_id)) false PySkip.absent])

/-- An inbound event together with the sid of the connection it arrives on. -/
inductive Event where
  | connect (sid : String) : Event
  | disconnect (sid : String) : Event
  | join_class (sid : String) (data : EventData) : Event
  | leave_class (sid : String) (data : EventData) : Event
  | poll_response_submitted (sid : String) (data : EventData) : Event
  | engagement_alert (sid : String) (data : EventData) : Event
deriving DecidableEq, Repr

/-- The connection an event arrives on. -/
def Event.actor : Event → String
  | Event.connect s => s
  | Event.disconnect s => s
  | Event.join_class s _ => s
  | Event.leave_class s _ => s
  | Event.poll_response_submitted s _ => s
  | Event.engagement_alert s _ => s

/-- Dispatch one event to its handler and keep the resulting state. -/
def stepState (st : ServerState) : Event → ServerState
  | Event.connect s => (handle_connect s st).1
  | Event.disconnect s => (handle_disconnect s st).1
  | Event.join_class s d => (handle_join_class s d st).1
  | Event.leave_class s d => (handle_leave_class s d st).1
  | Event.poll_response_submitted s d => (handle_poll_response s d st).1
  | Event.engagement_alert s d => (handle_engagement_alert s d st).1

/-- Dispatch one event and keep the emitted envelopes. -/
def stepEmits (st : ServerState) : Event → List Emit
  | Event.connect s => (handle_connect s st).2
  | Event.disconnect s => (handle_disconnect s st).2
  | Event.join_class s d => (handle_join_class s d st).2
  | Event.leave_class s d => (handle_leave_class s d st).2
  | Event.poll_response_submitted s d => (handle_poll_response s d st).2
  | Event.engagement_alert s d => (handle_engagement_alert s d st).2

/-- Run a trace of events from a state. -/
def runTrace (st : ServerState) : List Event → ServerState
  | [] => st
  | e :: rest => runTrace (stepState st e) rest

/-! ### Helper lemmas about the room-manager primitives -/

theorem ServerState.ext (a b : ServerState) (h : ∀ k, a.rooms k = b.rooms k) : a = b := by
  cases a
  cases b
  simp only [ServerState.mk.injEq]
  funext k
  exact h k

theorem mem_addSid (a sid : String) (l : List String) :
    a ∈ addSid sid l ↔ a ∈ l ∨ a = sid := by
  unfold addSid
  by_cases h : sid ∈ l
  · simp only [if_pos h]
    constructor
    · exact Or.inl
    · rintro (ha | rfl)
      · exact ha
      · exact h
  · simp [if_neg h]

theorem addSid_of_mem (sid : String) (l : List String) (h : sid ∈ l) :
    addSid sid l = l := by
  unfold addSid
  simp [h]

theorem addSid_idem (sid : String) (l : List String) :
    addSid sid (addSid sid l) = addSid sid l := by
  apply addSid_of_mem
  exact (mem_addSid sid sid l).2 (Or.inr rfl)

theorem filter_addSid_of_not_mem (sid : String) (l : List String) (h : sid ∉ l) :
    (addSid sid l).filter (fun s => s ≠ sid) = l := by
  unfold addSid
  rw [if_neg h, List.filter_append]
  have h1 : l.filter (fun s => decide (s ≠ sid)) = l := by
    apply List.filter_eq_self.2
    intro a ha
    simp only [decide_eq_true_eq]
    intro hq
    exact h (hq ▸ ha)
  have h2 : [sid].filter (fun s => decide (s ≠ sid)) = [] := by simp
  rw [h1, h2, List.append_nil]

theorem notMem_filter_self (sid : String) (l : List String) :
    sid ∉ l.filter (fun s => s ≠ sid) := by
  intro h
  have := List.of_mem_filter h
  simp at this

theorem mem_of_mem_filter_ne (a sid : String) (l : List String)
    (h : a ∈ l.filter (fun s => s ≠ sid)) : a ∈ l :=
  List.mem_of_mem_filter h

theorem filter_ne_idem (sid : String) (l : List String) :
    (l.filter (fun s => s ≠ sid)).filter (fun s => s ≠ sid)
      = l.filter (fun s => s ≠ sid) := by
  apply List.filter_eq_self.2
  intro a ha
  have h := List.of_mem_filter ha
  simpa using h

theorem filter_ne_of_not_mem (sid : String) (l : List String) (h : sid ∉ l) :
    l.filter (fun s => s ≠ sid) = l := by
  apply List.filter_eq_self.2
  intro a ha
  simp only [decide_eq_true_eq]
  intro hq
  exact h (hq ▸ ha)

theorem skipped_pyTrue_false (s : String) : skipped PySkip.pyTrue s = false := rfl

theorem filter_not_skipped_absent (l : List String) :
    l.filter (fun s => !(skipped PySkip.absent s)) = l := by
  simp [skipped]

theorem filter_not_skipped_pyTrue (l : List String) :
    l.filter (fun s => !(skipped PySkip.pyTrue s)) = l := by
  simp [skipped]

theorem enterRoom_idem (room : RoomKey) (sid : String) (st : ServerState) :
    enterRoom room sid (enterRoom room sid st) = enterRoom room sid st := by
  apply ServerState.ext
  intro k
  simp only [enterRoom]
  by_cases hk : k = room
  · simp [hk, addSid_idem]
  · simp [hk]

theorem leaveRoom_idem (room : RoomKey) (sid : String) (st : ServerState) :
    leaveRoom room sid (leaveRoom room sid st) = leaveRoom room sid st := by
  apply ServerState.ext
  intro k
  simp only [leaveRoom]
  by_cases hk : k = room
  · simp [hk, filter_ne_idem]
  · simp [hk]

theorem enterRoom_notMem (room : RoomKey) (sid a : String) (st : ServerState) (k : RoomKey)
    (hne : a ≠ sid) (h : a ∉ st.rooms k) : a ∉ (enterRoom room sid st).rooms k := by
  simp only [enterRoom]
  by_cases hk : k = room
  · simp only [hk, if_pos rfl]
    intro hmem
    rcases (mem_addSid a sid (st.rooms room)).1 hmem with hl | he
    · exact h (hk ▸ hl)
    · exact hne he
  · simpa [hk] using h

theorem leaveRoom_notMem (room : RoomKey) (sid a : String) (st : ServerState) (k : RoomKey)
    (h : a ∉ st.rooms k) : a ∉ (leaveRoom room sid st).rooms k := by
  simp only [leaveRoom]
  by_cases hk : k = room
  · simp only [hk, if_pos rfl]
    intro hmem
    exact h (hk ▸ List.mem_of_mem_filter hmem)
  · simpa [hk] using h

theorem disconnectSid_notMem (sid : String) (st : ServerState) (k : RoomKey) :
    sid ∉ (disconnectSid sid st).rooms k := by
  show sid ∉ (st.rooms k).filter (fun s => s ≠ sid)
  exact notMem_filter_self sid (st.rooms k)

theorem disconnectSid_notMem_other (sid a : String) (st : ServerState) (k : RoomKey)
    (h : a ∉ st.rooms k) : a ∉ (disconnectSid sid st).rooms k := by
  intro hmem
  exact h (List.mem_of_mem_filter hmem)

theorem step_preserves_notMem (st : ServerState) (e : Event) (sid : String) (k : RoomKey)
    (hne : e.actor ≠ sid) (h : sid ∉ st.rooms k) : sid ∉ (stepState st e).rooms k := by
  cases e with
  | connect s =>
      have hs : s ≠ sid := hne
      show sid ∉ (connectSid s st).rooms k
      exact enterRoom_notMem _ _ _ _ _ (fun hq => hs hq.symm)
        (enterRoom_notMem _ _ _ _ _ (fun hq => hs hq.symm) h)
  | disconnect s =>
      exact disconnectSid_notMem_other s sid st k h
  | join_class s d =>
      have hs : s ≠ sid := hne
      exact enterRoom_notMem _ _ _ _ _ (fun hq => hs hq.symm) h
  | leave_class s d =>
      exact leaveRoom_notMem _ _ _ _ _ h
  | poll_response_submitted s d =>
      exact h
  | engagement_alert s d =>
      exact h

theorem runTrace_notMem (sid : String) (k : RoomKey) (t : List Event) :
    ∀ st : ServerState, sid ∉ st.rooms k → (∀ e ∈ t, e.actor ≠ sid) →
      sid ∉ (runTrace st t).rooms k := by
  induction t with
  | nil =>
      intro st h _
      exact h
  | cons e rest ih =>
      intro st h hall
      exact ih (stepState st e)
        (step_preserves_notMem st e sid k (hall e (List.mem_cons_self e rest)) h)
        (fun e2 he2 => hall e2 (List.mem_cons_of_mem e he2))

/-! ### Claim theorems -/

/-- Claim C1: the claim says an `engagement_alert` on class C is delivered
exactly to the teacher-role connections that joined C.  In the code the
alert is emitted to the literal room `teachers_{class_id}`, which
`handle_join_class` never populates (it joins only `class_id`, regardless of
role), so a teacher that joined `class1` receives nothing: here `B` is a
teacher-role member of `class1`, yet the alert's audience is empty. -/
theorem engagement_alert_teacher_never_receives :
    "B" ∈ (runTrace initState
      [Event.connect "A", Event.connect "B",
       Event.join_class "A" { class_id := some "class1", user_id := some "sA", role := some "student" },
       Event.join_class "B" { class_id := some "class1", user_id := some "tB", role := some "teacher" }]).rooms
      (RoomKey.name "class1")
    ∧ (handle_engagement_alert "A"
        { class_id := some "class1", student_id := some "s5",
          alert_type := some "inactivity", severity := some "high", message := some "msg" }
        (runTrace initState
          [Event.connect "A", Event.connect "B",
           Event.join_class "A" { class_id := some "class1", user_id := some "sA", role := some "student" },
           Event.join_class "B" { class_id := some "class1", user_id := some "tB", role := some "teacher" }])).2
      = [⟨Payload.engagement_alert_received (some "s5") (some "inactivity") (some "high") (some "msg"), []⟩] := by
  decide

/-- Claim C2: the counterexample.  The claim says an event missing a
required field is dropped with no outbound envelope; in the code a
`poll_response_submitted` without `class_id` reads `None`, and
`emit(..., room=None, broadcast=True)` broadcasts `poll_updated` to every
connected client, here both `A` and `B`. -/
theorem poll_missing_class_id_broadcasts :
    (handle_poll_response "A" { poll_id := some "p1", total_responses := some 7 }
      (runTrace initState [Event.connect "A", Event.connect "B"])).2
      = [⟨Payload.poll_updated (some "p1") 7, ["A", "B"]⟩] := by
  decide

/-- Claim C2 (amended): an inbound event missing its `class_id` is not
dropped and no error report is made; the handlers read the missing field as
`None` and still emit: `poll_response_submitted` broadcasts `poll_updated`
to the catch-all room (every connected client), and `join_class` joins the
`None` room and emits `user_joined` to the sender's personal room. -/
theorem missing_class_id_event_still_emitted (st : ServerState) (sender : String)
    (d : EventData) (h : d.class_id = Option.none) :
    (handle_poll_response sender d st).2
      = [⟨Payload.poll_updated d.poll_id (d.total_responses.getD 0), st.rooms RoomKey.pyNone⟩]
    ∧ (handle_join_class sender d st).1 = enterRoom RoomKey.pyNone sender st
    ∧ (handle_join_class sender d st).2
      = [⟨Payload.user_joined d.user_id (d.role.getD "student"),
          st.rooms (RoomKey.name sender)⟩] := by
  refine ⟨?_, ?_, ?_⟩
  · simp [handle_poll_response, emitEvent, emitKey, h, filter_not_skipped_absent]
  · simp [handle_join_class, roomKeyOf, h]
  · simp only [handle_join_class, h, roomKeyOf, emitEvent, emitKey,
      filter_not_skipped_pyTrue, enterRoom]
    simp

/-- Witness for the amended claim C2 at a concrete input. -/
theorem missing_class_id_event_still_emitted_witness :
    let d : EventData := { poll_id := some "p1", total_responses := some 7 };
    let st := runTrace initState [Event.connect "A", Event.connect "B"];
    d.class_id = Option.none
    ∧ ((handle_poll_response "A" d st).2
        = [⟨Payload.poll_updated d.poll_id (d.total_responses.getD 0), st.rooms RoomKey.pyNone⟩]
      ∧ (handle_join_class "A" d st).1 = enterRoom RoomKey.pyNone "A" st
      ∧ (handle_join_class "A" d st).2
        = [⟨Payload.user_joined d.user_id (d.role.getD "student"),
            st.rooms (RoomKey.name "A")⟩]) :=
  ⟨rfl, missing_class_id_event_still_emitted
    (runTrace initState [Event.connect "A", Event.connect "B"]) "A"
    { poll_id := some "p1", total_responses := some 7 } rfl⟩

/-- Claim C3: after a disconnect the connection is in no room, and it stays
out of every room for the rest of any trace in which it does not act again:
no room retains a reference to a disconnected connection. -/
theorem disconnect_removes_all_memberships (st : ServerState) (sid : String)
    (rest : List Event) (k : RoomKey) (hrest : ∀ e ∈ rest, e.actor ≠ sid) :
    sid ∉ (stepState st (Event.disconnect sid)).rooms k
    ∧ sid ∉ (runTrace (stepState st (Event.disconnect sid)) rest).rooms k := by
  have h0 : sid ∉ (stepState st (Event.disconnect sid)).rooms k :=
    disconnectSid_notMem sid st k
  exact ⟨h0, runTrace_notMem sid k rest _ h0 hrest⟩

/-- Witness for claim C3: `A` joins `class1` and disconnects; after further
events by `B`, `A` is still absent from `class1`. -/
theorem disconnect_removes_all_memberships_witness :
    (∀ e ∈ [Event.connect "B", Event.join_class "B" { class_id := some "class1" }],
        Event.actor e ≠ "A")
    ∧ ("A" ∉ (stepState
          (runTrace initState
            [Event.connect "A", Event.join_class "A" { class_id := some "class1" }])
          (Event.disconnect "A")).rooms (RoomKey.name "class1")
      ∧ "A" ∉ (runTrace
          (stepState
            (runTrace initState
              [Event.connect "A", Event.join_class "A" { class_id := some "class1" }])
            (Event.disconnect "A"))
          [Event.connect "B", Event.join_class "B" { class_id := some "class1" }]).rooms
          (RoomKey.name "class1")) :=
  ⟨by decide,
   disconnect_removes_all_memberships
    (runTrace initState
      [Event.connect "A", Event.join_class "A" { class_id := some "class1" }])
    "A"
    [Event.connect "B", Event.join_class "B" { class_id := some "class1" }]
    (RoomKey.name "class1") (by decide)⟩

/-- Claim C4: the claim says `user_joined` reaches all members except the
sender.  The code passes `skip_sid=True`, and a sid string never compares
equal to the Python `True`, so nobody is skipped: after `A` joins `class1`
(where `B` is already a member, so members = B, A), the emitted audience is
`["B", "A"]` — it contains the sender and has size `|members|`, not
`|members| - 1`. -/
theorem user_joined_delivered_to_sender :
    (handle_join_class "A"
        { class_id := some "class1", user_id := some "uA", role := some "student" }
        (runTrace initState
          [Event.connect "A", Event.connect "B",
           Event.join_class "B" { class_id := some "class1", user_id := some "uB", role := some "teacher" }])).2
      = [⟨Payload.user_joined (some "uA") "student", ["B", "A"]⟩] := by
  decide

/-- Claim C5: a `poll_response_submitted` on class C from a member S emits
exactly one `poll_updated`, whose audience is the current member list of C
(hence includes S), with `poll_id` and `total_responses` passed through
unchanged. -/
theorem poll_updated_reaches_all_members (st : ServerState) (sender c : String)
    (n : Int) (d : EventData) (hc : d.class_id = some c)
    (hn : d.total_responses = some n)
    (hm : sender ∈ st.rooms (RoomKey.name c)) :
    (handle_poll_response sender d st).2
      = [⟨Payload.poll_updated d.poll_id n, st.rooms (RoomKey.name c)⟩]
    ∧ sender ∈ st.rooms (RoomKey.name c) := by
  refine ⟨?_, hm⟩
  simp [handle_poll_response, emitEvent, emitKey, hc, hn, filter_not_skipped_absent]

/-- Witness for claim C5: scenario A of the spec, with members A and B. -/
theorem poll_updated_reaches_all_members_witness :
    let d : EventData := { poll_id := some "p1", class_id := some "class1",
                           total_responses := some 7 };
    let st := runTrace initState
      [Event.connect "A", Event.connect "B",
       Event.join_class "A" { class_id := some "class1", user_id := some "uA" },
       Event.join_class "B" { class_id := some "class1", user_id := some "uB", role := some "teacher" }];
    (d.class_id = some "class1" ∧ d.total_responses = some 7
      ∧ "A" ∈ st.rooms (RoomKey.name "class1"))
    ∧ ((handle_poll_response "A" d st).2
        = [⟨Payload.poll_updated d.poll_id 7, st.rooms (RoomKey.name "class1")⟩]
      ∧ "A" ∈ st.rooms (RoomKey.name "class1")) :=
  ⟨⟨rfl, rfl, by decide⟩,
   poll_updated_reaches_all_members
    (runTrace initState
      [Event.connect "A", Event.connect "B",
       Event.join_class "A" { class_id := some "class1", user_id := some "uA" },
       Event.join_class "B" { class_id := some "class1", user_id := some "uB", role := some "teacher" }])
    "A" "class1" 7
    { poll_id := some "p1", class_id := some "class1", total_responses := some 7 }
    rfl rfl (by decide)⟩

/-- Claim C6: the counterexample.  The claim quantifies over every starting
state; when the connection is already a member of the room, the join is a
no-op and the leave removes it, so `members` does not return to its pre-join
value: here `members(class1)` is `["A"]` before and `[]` after. -/
theorem join_leave_drops_existing_member :
    let d : EventData := { class_id := some "class1", user_id := some "uA" };
    let st := runTrace initState [Event.connect "A", Event.join_class "A" d];
    st.rooms (RoomKey.name "class1") = ["A"]
    ∧ (handle_leave_class "A" d (handle_join_class "A" d st).1).1.rooms
        (RoomKey.name "class1") = [] := by
  decide

/-- Claim C6 (amended): provided the connection is not already a member of
the targeted room, handling `join_class` followed by `leave_class` for the
same `class_id` restores the entire room state (in particular `members(R)`)
to its pre-join value. -/
theorem join_then_leave_restores (st : ServerState) (sender : String)
    (d1 d2 : EventData) (hc : d2.class_id = d1.class_id)
    (h : sender ∉ st.rooms (roomKeyOf d1.class_id)) :
    (handle_leave_class sender d2 (handle_join_class sender d1 st).1).1 = st := by
  apply ServerState.ext
  intro k
  show (if k = roomKeyOf d2.class_id
      then ((enterRoom (roomKeyOf d1.class_id) sender st).rooms k).filter (fun s => s ≠ sender)
      else (enterRoom (roomKeyOf d1.class_id) sender st).rooms k)
    = st.rooms k
  rw [hc]
  by_cases hk : k = roomKeyOf d1.class_id
  · rw [if_pos hk, hk]
    show (if roomKeyOf d1.class_id = roomKeyOf d1.class_id
        then addSid sender (st.rooms (roomKeyOf d1.class_id))
        else st.rooms (roomKeyOf d1.class_id)).filter (fun s => s ≠ sender)
      = st.rooms (roomKeyOf d1.class_id)
    rw [if_pos rfl]
    exact filter_addSid_of_not_mem sender _ h
  · rw [if_neg hk]
    show (if k = roomKeyOf d1.class_id
        then addSid sender (st.rooms k) else st.rooms k) = st.rooms k
    rw [if_neg hk]

/-- Witness for the amended claim C6: `A` is not yet a member of `class1`,
joins it and leaves it, and the state returns to its pre-join value. -/
theorem join_then_leave_restores_witness :
    let d : EventData := { class_id := some "class1", user_id := some "uA" };
    let st := runTrace initState [Event.connect "A", Event.connect "B"];
    "A" ∉ st.rooms (roomKeyOf d.class_id)
    ∧ (handle_leave_class "A" d (handle_join_class "A" d st).1).1 = st :=
  ⟨by decide,
   join_then_leave_restores (runTrace initState [Event.connect "A", Event.connect "B"])
    "A" { class_id := some "class1", user_id := some "uA" }
    { class_id := some "class1", user_id := some "uA" } rfl (by decide)⟩

/-- Claim C7: `join_class` and `leave_class` are idempotent on the server
state — handling the same event twice in a row yields the same state as
handling it once, so the second call changes neither `members(R)` nor the
set of rooms the connection is in. -/
theorem join_leave_idempotent (st : ServerState) (sender : String) (d : EventData) :
    (handle_join_class sender d (handle_join_class sender d st).1).1
      = (handle_join_class sender d st).1
    ∧ (handle_leave_class sender d (handle_leave_class sender d st).1).1
      = (handle_leave_class sender d st).1 :=
  ⟨enterRoom_idem (roomKeyOf d.class_id) sender st,
   leaveRoom_idem (roomKeyOf d.class_id) sender st⟩

/-- Claim C8: `poll_response_submitted` and `engagement_alert` are read-only
forwarding — the room state is left unchanged, and the emitted payloads
carry the inbound `total_responses`, `severity` (and the other fields)
through without recomputation. -/
theorem forwarding_handlers_pure (st : ServerState) (sender : String)
    (d : EventData) (n : Int) (hn : d.total_responses = some n) :
    stepState st (Event.poll_response_submitted sender d) = st
    ∧ stepState st (Event.engagement_alert sender d) = st
    ∧ (handle_poll_response sender d st).2.map Emit.payload
        = [Payload.poll_updated d.poll_id n]
    ∧ (handle_engagement_alert sender d st).2.map Emit.payload
        = [Payload.engagement_alert_received d.student_id d.alert_type
            d.severity d.message] := by
  refine ⟨rfl, rfl, ?_, rfl⟩
  simp [handle_poll_response, emitEvent, hn]

/-- Witness for claim C8 at a concrete input. -/
theorem forwarding_handlers_pure_witness :
    let d : EventData := { poll_id := some "p1", class_id := some "class1",
                           total_responses := some 7, student_id := some "s5",
                           alert_type := some "inactivity", severity := some "high",
                           message := some "msg" };
    let st := runTrace initState [Event.connect "A"];
    d.total_responses = some 7
    ∧ (stepState st (Event.poll_response_submitted "A" d) = st
      ∧ stepState st (Event.engagement_alert "A" d) = st
      ∧ (handle_poll_response "A" d st).2.map Emit.payload
          = [Payload.poll_updated d.poll_id 7]
      ∧ (handle_engagement_alert "A" d st).2.map Emit.payload
          = [Payload.engagement_alert_received d.student_id d.alert_type
              d.severity d.message]) :=
  ⟨rfl,
   forwarding_handlers_pure (runTrace initState [Event.connect "A"]) "A"
    { poll_id := some "p1", class_id := some "class1",
      total_responses := some 7, student_id := some "s5",
      alert_type := some "inactivity", severity := some "high",
      message := some "msg" } 7 rfl⟩

/-- Claim C9: a `join_class` without a `role` field is not dropped — the
connection still joins the room and a `user_joined` with role defaulted to
`student` is emitted. -/
theorem join_class_missing_role_defaults_student (st : ServerState)
    (sender : String) (d : EventData) (h : d.role = Option.none) :
    (handle_join_class sender d st).1 = enterRoom (roomKeyOf d.class_id) sender st
    ∧ sender ∈ (handle_join_class sender d st).1.rooms (roomKeyOf d.class_id)
    ∧ (handle_join_class sender d st).2.map Emit.payload
        = [Payload.user_joined d.user_id "student"] := by
  refine ⟨rfl, ?_, ?_⟩
  · show sender ∈ (enterRoom (roomKeyOf d.class_id) sender st).rooms (roomKeyOf d.class_id)
    show sender ∈ (if roomKeyOf d.class_id = roomKeyOf d.class_id
        then addSid sender (st.rooms (roomKeyOf d.class_id))
        else st.rooms (roomKeyOf d.class_id))
    rw [if_pos rfl]
    exact (mem_addSid sender sender _).2 (Or.inr rfl)
  · simp [handle_join_class, emitEvent, h]

/-- Witness for claim C9 at a concrete input. -/
theorem join_class_missing_role_defaults_student_witness :
    let d : EventData := { class_id := some "class1", user_id := some "uA" };
    let st := runTrace initState [Event.connect "A"];
    d.role = Option.none
    ∧ ((handle_join_class "A" d st).1 = enterRoom (roomKeyOf d.class_id) "A" st
      ∧ "A" ∈ (handle_join_class "A" d st).1.rooms (roomKeyOf d.class_id)
      ∧ (handle_join_class "A" d st).2.map Emit.payload
          = [Payload.user_joined d.user_id "student"]) :=
  ⟨rfl,
   join_class_missing_role_defaults_student (runTrace initState [Event.connect "A"])
    "A" { class_id := some "class1", user_id := some "uA" } rfl⟩

/-- Claim C10: a `poll_response_submitted` without `total_responses` still
emits `poll_updated`, with `total_responses` defaulted to `0`. -/
theorem poll_missing_total_defaults_zero (st : ServerState) (sender : String)
    (d : EventData) (h : d.total_responses = Option.none) :
    (handle_poll_response sender d st).2.map Emit.payload
      = [Payload.poll_updated d.poll_id 0] := by
  simp [handle_poll_response, emitEvent, h]

/-- Witness for claim C10 at a concrete input. -/
theorem poll_missing_total_defaults_zero_witness :
    let d : EventData := { poll_id := some "p1", class_id := some "class1" };
    let st := runTrace initState [Event.connect "A"];
    d.total_responses = Option.none
    ∧ (handle_poll_response "A" d st).2.map Emit.payload
        = [Payload.poll_updated d.poll_id 0] :=
  ⟨rfl,
   poll_missing_total_defaults_zero (runTrace initState [Event.connect "A"]) "A"
    { poll_id := some "p1", class_id := some "class1" } rfl⟩
